import Mathlib

/-!
# Verification of the BluePLM Google Drive extension (server handlers)

A shallow embedding of the server-side request handlers of the
`blueplm-ext-google-drive` repository:

* `src/server/connect.ts`        — OAuth connect handler (`connectHandler`)
* `src/server/oauth-callback.ts` — OAuth callback handler (`oauthCallback`)
* `src/server/sync.ts`           — sync handler (`syncHandler`) with
  `getValidAccessToken`, `syncUpload`, `syncDownload`, `shouldExclude`,
  `globToRegex`
* `src/server/status.ts`         — status handler (`statusHandler`) with
  `refreshAccessToken`, `getQuotaInfo`
* `src/server/disconnect.ts`     — disconnect handler (`disconnectHandler`)

The host platform's key-value `storage` and encrypted `secrets` stores are
modelled as association lists.  Storage keys used by the extension are all
fixed string literals plus the `oauth_state_<token>` family; they are
represented by the inductive `Key` (`Key.oauth_state tok` stands for the
string key `"oauth_state_" ++ tok`), which preserves exactly the
disjointness of the string keys.  Network calls (`api.http.fetch` followed
by `.json()` parsing) are modelled by a `Fetch` oracle passed to each
handler: `ok` carries the parsed JSON body of a response with `ok = true`,
`notOk` is a response with `ok = false`, and `throws` is a rejected
fetch/parse.  JavaScript truthiness of the optional strings, numbers and
booleans read from the stores is modelled explicitly (`truthyS`, `truthyI`,
`truthyB`).
-/

namespace GDrive

/-- Keys of the encrypted secret store used by the extension. -/
inductive SKey
  | access_token
  | refresh_token
  | GOOGLE_CLIENT_ID
  | GOOGLE_CLIENT_SECRET
deriving DecidableEq, Repr

/-- Keys of the key-value storage used by the extension.
`oauth_state tok` represents the string key `"oauth_state_" ++ tok`. -/
inductive Key
  | connected
  | connected_at
  | token_expires_at
  | user_email
  | user_name
  | user_picture
  | last_sync_at
  | last_sync_result
  | sync_cursor
  | config
  | oauth_state (tok : String)
deriving DecidableEq, Repr

/-- `syncDirection` values of the sync configuration
(`'bidirectional' | 'upload-only' | 'download-only'`). -/
inductive SyncDirection
  | bidirectional
  | uploadOnly
  | downloadOnly
deriving DecidableEq, Repr

/-- The slice of the `config` storage record read by the sync handler
(`{ syncDirection?, excludePatterns? }`); absent optional fields are
`none`. -/
structure SyncConfig where
  syncDirection : Option SyncDirection := none
  excludePatterns : Option (List String) := none
deriving DecidableEq, Repr

/-- The sync result record built by the sync handler (`SyncResult`). -/
structure SyncResult where
  success : Bool
  synced : Nat
  uploaded : Nat
  downloaded : Nat
  errors : Nat
  errorMessages : List String
deriving DecidableEq, Repr

/-- Values stored in the key-value storage: booleans, numbers
(epoch-milliseconds), strings (ISO timestamps, e-mail, …), OAuth state
records `{ createdAt, userId? }`, the sync `config` record, and the
`last_sync_result` record. -/
inductive SVal
  | b (x : Bool)
  | n (x : Int)
  | s (x : String)
  | state (createdAt : Int) (userId : Option String)
  | cfg (c : SyncConfig)
  | res (r : SyncResult)
deriving DecidableEq, Repr

/-- First-match lookup in an association list (the storage backends return
the value stored for a key, `none` when absent). -/
def alookup [DecidableEq α] : List (α × β) → α → Option β
  | [], _ => none
  | (k', v) :: l, k => if k' = k then some v else alookup l k

/-- Remove every entry with the given key. -/
def aerase [DecidableEq α] (l : List (α × β)) (k : α) : List (α × β) :=
  l.filter fun p => decide (p.1 ≠ k)

/-- The host-provided persistence visible to one handler run: the
key-value `storage` and the encrypted `secrets` store. -/
structure Store where
  storage : List (Key × SVal)
  secrets : List (SKey × String)
deriving DecidableEq, Repr

namespace Store

/-- `api.storage.get(key)`. -/
def get (st : Store) (k : Key) : Option SVal := alookup st.storage k

/-- `api.storage.set(key, value)`. -/
def set (st : Store) (k : Key) (v : SVal) : Store :=
  { st with storage := (k, v) :: aerase st.storage k }

/-- `api.storage.delete(key)`. -/
def del (st : Store) (k : Key) : Store :=
  { st with storage := aerase st.storage k }

/-- `api.secrets.get(name)`. -/
def getSecret (st : Store) (k : SKey) : Option String := alookup st.secrets k

/-- `api.secrets.set(name, value)`. -/
def setSecret (st : Store) (k : SKey) (v : String) : Store :=
  { st with secrets := (k, v) :: aerase st.secrets k }

/-- `api.secrets.delete(name)`. -/
def delSecret (st : Store) (k : SKey) : Store :=
  { st with secrets := aerase st.secrets k }

/-- Typed read of a boolean storage value (`api.storage.get<boolean>`);
a value of a different shape reads as absent. -/
def getBool (st : Store) (k : Key) : Option Bool :=
  match st.get k with | some (.b x) => some x | _ => none

/-- Typed read of a numeric storage value (`api.storage.get<number>`). -/
def getInt (st : Store) (k : Key) : Option Int :=
  match st.get k with | some (.n x) => some x | _ => none

/-- Typed read of a string storage value (`api.storage.get<string>`). -/
def getStr (st : Store) (k : Key) : Option String :=
  match st.get k with | some (.s x) => some x | _ => none

/-- Typed read of an OAuth state record
(`api.storage.get<{ createdAt: number; userId?: string }>`). -/
def getState (st : Store) (k : Key) : Option (Int × Option String) :=
  match st.get k with | some (.state c u) => some (c, u) | _ => none

/-- Typed read of the sync `config` record. -/
def getCfg (st : Store) (k : Key) : Option SyncConfig :=
  match st.get k with | some (.cfg c) => some c | _ => none

end Store

/-! ## JavaScript truthiness of values read from the stores -/

/-- Truthiness of `string | undefined`: absent and the empty string are
falsy. -/
def truthyS : Option String → Bool
  | none => false
  | some s => decide (s ≠ "")

/-- Truthiness of `number | undefined`: absent and `0` are falsy. -/
def truthyI : Option Int → Bool
  | none => false
  | some n => decide (n ≠ 0)

/-- Truthiness of `boolean | undefined`: absent and `false` are falsy. -/
def truthyB : Option Bool → Bool
  | none => false
  | some b => b

/-- Outcome of one `api.http.fetch` call together with the parsing of its
JSON body: `ok d` is a response with `response.ok = true` whose parsed
body is `d`; `notOk body` is a response with `response.ok = false` (its
text used only for logging); `throws msg` is a rejected fetch (network
failure) or a body that fails to parse. -/
inductive Fetch (α : Type)
  | ok (data : α)
  | notOk (body : String)
  | throws (msg : String)
deriving DecidableEq, Repr

/-! ## Glob-to-regex translation (`globToRegex`, `shouldExclude`)

`globToRegex` escapes the characters of the class ``[.+^${}()|[\]\\]``,
replaces every `*` with `.*` and every `?` with `.`, and builds the
anchored case-insensitive regex `^…$` with flag `i`.  The three global
single-character `String.replace` passes are modelled as per-character
substitutions; the produced regex source is then parsed into atoms
(`RTok`) and matched with the semantics of a JavaScript `RegExp` without
the `s` or `u` flags: `.` matches any character except the line
terminators U+000A, U+000D, U+2028, U+2029, and the `i` flag folds case
(ASCII folding in this model).  `RegExp.prototype.test` succeeds exactly
when some backtracking assignment matches, which is the existence
semantics computed by `rmatch`. -/

/-- The characters escaped by `globToRegex`
(the regex character class ``[.+^${}()|[\]\\]``). -/
def regexSpecials : List Char :=
  ['.', '+', '^', '$', '\x7b', '\x7d', '(', ')', '|', '[', ']', '\\']

/-- Escaping of one character (`.replace(/[.+^${}()|[\]\\]/g, '\\$&')`). -/
def escapeChar (c : Char) : List Char :=
  if c ∈ regexSpecials then ['\\', c] else [c]

/-- The whole escaping pass. -/
def escapeStep (l : List Char) : List Char := (l.map escapeChar).flatten

/-- Substitution of one character for the `*` pass (`.replace(/\*/g, '.*')`). -/
def starSub (c : Char) : List Char := if c = '*' then ['.', '*'] else [c]

/-- The whole `*` pass. -/
def starStep (l : List Char) : List Char := (l.map starSub).flatten

/-- Substitution of one character for the `?` pass (`.replace(/\?/g, '.')`). -/
def qmarkSub (c : Char) : List Char := if c = '?' then ['.'] else [c]

/-- The whole `?` pass. -/
def qmarkStep (l : List Char) : List Char := (l.map qmarkSub).flatten

/-- The source of the regex built by `globToRegex glob`, without the
surrounding `^`/`$` anchors (matching is anchored explicitly below). -/
def globToRegexBody (glob : String) : List Char :=
  qmarkStep (starStep (escapeStep glob.data))

/-- Atoms of the regexes `globToRegex` produces: a literal character
(possibly escaped), `.` and `.*`. -/
inductive RTok
  | lit (c : Char)
  | anyOne
  | anyStar
deriving DecidableEq, Repr

/-- Parse a regex source produced by `globToRegex` into its atoms, as a
JavaScript `RegExp` would group it: a backslash escapes the next
character, a `*` quantifies the preceding `.` (in the produced sources
every `*` follows a `.`), everything else is a literal. -/
def parseRegexBody : List Char → Option (List RTok)
  | [] => some []
  | c :: r =>
    if c = '\\' then
      match r with
      | [] => none
      | d :: r' => (parseRegexBody r').map (RTok.lit d :: ·)
    else if c = '.' then
      match r with
      | d :: r' =>
        if d = '*' then (parseRegexBody r').map (RTok.anyStar :: ·)
        else (parseRegexBody (d :: r')).map (RTok.anyOne :: ·)
      | [] => some [RTok.anyOne]
    else (parseRegexBody r).map (RTok.lit c :: ·)

/-- Whether a JavaScript `.` (no `s` flag) matches the character: any
character except the line terminators U+000A, U+000D, U+2028, U+2029. -/
def dotMatch (c : Char) : Bool :=
  !(c = '\n' || c = '\r' || c = '\u2028' || c = '\u2029')

/-- The suffixes of the input a `.*` atom can leave over: the consumed
prefix must consist of characters `.` matches. -/
def dotSuffixes : List Char → List (List Char)
  | [] => [[]]
  | d :: ds => (d :: ds) :: (if dotMatch d then dotSuffixes ds else [])

/-- Anchored matching of a list of atoms against a whole input, with
case folding for the `i` flag; `true` iff some assignment of the `.*`
atoms covers the input exactly (`RegExp.prototype.test` succeeds exactly
when the backtracking search finds one such assignment). -/
def rmatch : List RTok → List Char → Bool
  | [], s => s.isEmpty
  | RTok.lit c :: ts, s =>
    match s with
    | [] => false
    | d :: ds => (c.toLower == d.toLower) && rmatch ts ds
  | RTok.anyOne :: ts, s =>
    match s with
    | [] => false
    | d :: ds => dotMatch d && rmatch ts ds
  | RTok.anyStar :: ts, s => (dotSuffixes s).any fun u => rmatch ts u

/-- `globToRegex(glob).test(filename)`. -/
def globTest (glob filename : String) : Bool :=
  match parseRegexBody (globToRegexBody glob) with
  | some ts => rmatch ts filename.data
  | none => false

/-- `shouldExclude(filename, patterns)`: first pattern whose regex
matches wins. -/
def shouldExclude (filename : String) : List String → Bool
  | [] => false
  | p :: ps => if globTest p filename then true else shouldExclude filename ps

/-- Declarative glob semantics, for comparison with the implementation:
`*` matches any (possibly empty) run of non-line-terminator characters,
`?` one non-line-terminator character, and any other character matches
itself up to (ASCII) case. -/
def GlobSpec : List Char → List Char → Prop
  | [], s => s = []
  | c :: g, s =>
    if c = '*' then
      ∃ t u, s = t ++ u ∧ (∀ x ∈ t, dotMatch x = true) ∧ GlobSpec g u
    else if c = '?' then
      ∃ d u, s = d :: u ∧ dotMatch d = true ∧ GlobSpec g u
    else
      ∃ d u, s = d :: u ∧ c.toLower = d.toLower ∧ GlobSpec g u

/-! ## Small JavaScript library functions used by the handlers -/

/-- The characters `encodeURIComponent` leaves unescaped: ASCII
alphanumerics and `- _ . ! ~ * ' ( )`. -/
def uriUnreserved (c : Char) : Bool :=
  c.isAlpha || c.isDigit ||
    c ∈ ['-', '_', '.', '!', '~', '*', Char.ofNat 39, '(', ')']

/-- Upper-case hexadecimal digit. -/
def hexDigit (n : Nat) : Char :=
  if n < 10 then Char.ofNat (48 + n) else Char.ofNat (55 + n)

/-- UTF-8 encoding of a code point. -/
def utf8Bytes (n : Nat) : List Nat :=
  if n < 0x80 then [n]
  else if n < 0x800 then [0xC0 + n / 0x40, 0x80 + n % 0x40]
  else if n < 0x10000 then
    [0xE0 + n / 0x1000, 0x80 + n / 0x40 % 0x40, 0x80 + n % 0x40]
  else
    [0xF0 + n / 0x40000, 0x80 + n / 0x1000 % 0x40, 0x80 + n / 0x40 % 0x40,
     0x80 + n % 0x40]

/-- `encodeURIComponent`: percent-encode every character outside the
unreserved set, byte by byte of its UTF-8 encoding. -/
def encodeURIComponent (s : String) : String :=
  ⟨(s.data.map fun c =>
      if uriUnreserved c then [c]
      else ((utf8Bytes c.toNat).map fun b =>
        ['%', hexDigit (b / 16), hexDigit (b % 16)]).flatten).flatten⟩

/-- `parseInt(s)` with no radix argument on a decimal string: skip
leading whitespace, optional sign, read the leading digits; `none`
models `NaN` (which the status handler's JSON response renders as an
absent quota number). -/
def jsParseInt (s : String) : Option Int :=
  let t := s.data.dropWhile fun c =>
    c = ' ' || c = '\t' || c = '\n' || c = '\r' || c = '\x0b' || c = '\x0c'
  let signAndRest : Int × List Char :=
    match t with
    | '-' :: r => (-1, r)
    | '+' :: r => (1, r)
    | _ => (1, t)
  let ds := signAndRest.2.takeWhile Char.isDigit
  if ds.isEmpty then none
  else some (signAndRest.1 * ((ds.foldl (fun a c => a * 10 + (c.toNat - 48)) (0 : Nat) : Nat) : Int))

/-! ## Status handler (`src/server/status.ts`) -/

/-- Parsed body of a successful token-endpoint response to a
`refresh_token` grant (`{ access_token, expires_in }`). -/
structure RefreshData where
  access_token : String
  expires_in : Int
deriving DecidableEq, Repr

/-- `refreshAccessToken`: `false` when no refresh token or client
credentials are stored, when the token endpoint answers non-ok, or when
the request throws (the `try`/`catch` turns the throw into `false`); on
success stores the new access token and recomputed expiry and returns
`true`. -/
def refreshAccessToken (now : Int) (st : Store) (f : Fetch RefreshData) : Bool × Store :=
  if !truthyS (st.getSecret .refresh_token) then (false, st)
  else if !truthyS (st.getSecret .GOOGLE_CLIENT_ID) ||
      !truthyS (st.getSecret .GOOGLE_CLIENT_SECRET) then (false, st)
  else
    match f with
    | .notOk _ => (false, st)
    | .throws _ => (false, st)
    | .ok d =>
      (true,
        (st.setSecret .access_token d.access_token).set .token_expires_at
          (.n (now + d.expires_in * 1000)))

/-- `storageQuota` part of the Drive `about` response. -/
structure StorageQuota where
  usage : Option String := none
  limit : Option String := none
deriving DecidableEq, Repr

/-- Parsed body of the Drive `about?fields=storageQuota` response. -/
structure AboutData where
  storageQuota : Option StorageQuota := none
deriving DecidableEq, Repr

/-- `getQuotaInfo`: `{}` on a non-ok response, otherwise `parseInt` of
each truthy quota string.  A thrown fetch propagates to the status
handler's `try`/`catch` around the call, which also yields `{}`; the
throw case is therefore folded in here. -/
def getQuotaInfo (f : Fetch AboutData) : Option Int × Option Int :=
  match f with
  | .notOk _ => (none, none)
  | .throws _ => (none, none)
  | .ok d =>
    match d.storageQuota with
    | none => (none, none)
    | some q =>
      ((if truthyS q.usage then jsParseInt (q.usage.getD "") else none),
       (if truthyS q.limit then jsParseInt (q.limit.getD "") else none))

/-- The `ConnectionStatus` JSON shape returned by the status handler;
absent optional fields are `none`. -/
structure StatusResp where
  connected : Bool
  userEmail : Option String := none
  userName : Option String := none
  userPicture : Option String := none
  connectedAt : Option String := none
  lastSyncAt : Option String := none
  quotaUsed : Option Int := none
  quotaTotal : Option Int := none
deriving DecidableEq, Repr

/-- One run of the status handler: its response, the final store, and a
trace of the quota request: `some tok` when the Drive `about` request was
issued, where `tok` is the value of the handler's `accessToken` variable
at that call (`accessToken!` forwards an absent secret unchanged). -/
structure StatusRun where
  resp : StatusResp
  store : Store
  quotaReq : Option (Option String)
deriving DecidableEq, Repr

/-- The status handler.  `rf` is the outcome of the token-refresh fetch
(consulted only when the refresh is attempted), `qf` the outcome of the
quota fetch. -/
def statusHandler (now : Int) (st : Store) (rf : Fetch RefreshData) (qf : Fetch AboutData) :
    StatusRun :=
  if !truthyB (st.getBool .connected) then
    { resp := { connected := false }, store := st, quotaReq := none }
  else
    match
      (if truthyS (st.getSecret .access_token) && truthyI (st.getInt .token_expires_at) &&
          decide (now ≥ (st.getInt .token_expires_at).getD 0 - 60000)
       then refreshAccessToken now st rf
       else (true, st)) with
    | (false, st₁) =>
      { resp := { connected := false }, store := st₁.set .connected (.b false), quotaReq := none }
    | (true, st₁) =>
      { resp :=
          { connected := true, userEmail := st.getStr .user_email,
            userName := st.getStr .user_name, userPicture := st.getStr .user_picture,
            connectedAt := st.getStr .connected_at, lastSyncAt := st.getStr .last_sync_at,
            quotaUsed := (getQuotaInfo qf).1, quotaTotal := (getQuotaInfo qf).2 },
        store := st₁, quotaReq := some (st.getSecret .access_token) }

/-! ## Sync handler (`src/server/sync.ts`) -/

/-- The `{ count, errors, errorMessages }` record each sync stage
returns. -/
structure StageResult where
  count : Nat
  errors : Nat
  errorMessages : List String
deriving DecidableEq, Repr

/-- `syncUpload`: a placeholder that uploads nothing and reports zero
counts whatever its arguments. -/
def syncUpload (_accessToken : String) (_excludePatterns : List String) : StageResult :=
  { count := 0, errors := 0, errorMessages := [] }

/-- One entry of the Drive file-listing response. -/
structure DriveFile where
  id : String
  name : String
  mimeType : String
  modifiedTime : String
  size : Option String := none
deriving DecidableEq, Repr

/-- `syncDownload`: lists up to 100 remote files (the fetch and its
parsing are the oracle `lf`), filters out excluded names, and downloads
nothing — `count` is `0` even on success.  A non-ok listing response or a
throw counts as one stage error. -/
def syncDownload (excludePatterns : List String) (lf : Fetch (List DriveFile)) : StageResult :=
  match lf with
  | .throws msg => { count := 0, errors := 1, errorMessages := [msg] }
  | .notOk _ =>
    { count := 0, errors := 1, errorMessages := ["Failed to list files from Google Drive"] }
  | .ok files =>
    let _filesToSync := files.filter fun file => !shouldExclude file.name excludePatterns
    { count := 0, errors := 0, errorMessages := [] }

/-- `getValidAccessToken`: the stored token if it is at least 5 minutes
from expiry, otherwise a refresh attempt; `none` when no refresh token or
client credentials exist or the refresh fails (non-ok or throw). -/
def getValidAccessToken (now : Int) (st : Store) (rf : Fetch RefreshData) :
    Option String × Store :=
  let accessToken := st.getSecret .access_token
  let expiresAt := st.getInt .token_expires_at
  if truthyS accessToken && truthyI expiresAt &&
      decide (now < expiresAt.getD 0 - 5 * 60 * 1000) then
    (accessToken, st)
  else if !truthyS (st.getSecret .refresh_token) then (none, st)
  else if !truthyS (st.getSecret .GOOGLE_CLIENT_ID) ||
      !truthyS (st.getSecret .GOOGLE_CLIENT_SECRET) then (none, st)
  else
    match rf with
    | .notOk _ => (none, st)
    | .throws _ => (none, st)
    | .ok d =>
      (some d.access_token,
        (st.setSecret .access_token d.access_token).set .token_expires_at
          (.n (now + d.expires_in * 1000)))

/-- Response of the sync handler. -/
inductive SyncResp
  | json (r : SyncResult)
  | error (msg : String) (code : Nat)
deriving DecidableEq, Repr

/-- One run of the sync handler: response, final store, and whether each
stage was invoked (invoking the download stage is exactly what issues its
file-listing network call). -/
structure SyncRun where
  resp : SyncResp
  store : Store
  uploadCalled : Bool
  downloadCalled : Bool
deriving DecidableEq, Repr

/-- The sync handler.  `nowIso` is `new Date().toISOString()` at the
final bookkeeping writes; `rf` is the refresh-fetch oracle for
`getValidAccessToken`, `lf` the file-listing oracle for `syncDownload`. -/
def syncHandler (now : Int) (nowIso : String) (st : Store)
    (rf : Fetch RefreshData) (lf : Fetch (List DriveFile)) : SyncRun :=
  if !truthyB (st.getBool .connected) then
    { resp := .error "Not connected to Google Drive" 401, store := st,
      uploadCalled := false, downloadCalled := false }
  else
    match getValidAccessToken now st rf with
    | (none, st₁) =>
      { resp := .error "Failed to get access token. Please reconnect." 401, store := st₁,
        uploadCalled := false, downloadCalled := false }
    | (some accessToken, st₁) =>
      let config := (st₁.getCfg .config).getD {}
      let syncDirection := config.syncDirection.getD .bidirectional
      let excludePatterns := config.excludePatterns.getD []
      let doUpload :=
        decide (syncDirection = .bidirectional) || decide (syncDirection = .uploadOnly)
      let upload := if doUpload then some (syncUpload accessToken excludePatterns) else none
      let doDownload :=
        decide (syncDirection = .bidirectional) || decide (syncDirection = .downloadOnly)
      let download := if doDownload then some (syncDownload excludePatterns lf) else none
      let uploaded := (upload.map StageResult.count).getD 0
      let downloaded := (download.map StageResult.count).getD 0
      let errors :=
        (upload.map StageResult.errors).getD 0 + (download.map StageResult.errors).getD 0
      let errorMessages :=
        (upload.map StageResult.errorMessages).getD [] ++
          (download.map StageResult.errorMessages).getD []
      let result : SyncResult :=
        { success := decide (errors = 0), synced := uploaded + downloaded,
          uploaded := uploaded, downloaded := downloaded, errors := errors,
          errorMessages := errorMessages }
      let st₂ := (st₁.set .last_sync_at (.s nowIso)).set .last_sync_result (.res result)
      { resp := .json result, store := st₂,
        uploadCalled := doUpload, downloadCalled := doDownload }

/-! ## Disconnect handler (`src/server/disconnect.ts`) -/

/-- Response of the disconnect handler. -/
inductive DisconnectResp
  | json (success : Bool) (message : String)
  | error (msg : String) (code : Nat)
deriving DecidableEq, Repr

/-- The fixed list of storage keys the disconnect handler deletes. -/
def keysToDelete : List Key :=
  [.connected, .connected_at, .token_expires_at, .user_email, .user_name,
   .user_picture, .last_sync_at, .last_sync_result, .sync_cursor]

/-- Whether a storage key belongs to the `oauth_state_` prefix family. -/
def Key.isOauthState : Key → Bool
  | .oauth_state _ => true
  | _ => false

/-- `api.storage.list('oauth_state_')`: the stored keys carrying the
`oauth_state_` prefix. -/
def Store.listOauthStates (st : Store) : List Key :=
  (st.storage.map Prod.fst).filter Key.isOauthState

/-- The disconnect handler.  The revocation request is attempted only
for a truthy stored access token and its outcome — `_revoke`, including a
throw — is swallowed by the inner `try`/`catch`; the handler then deletes
both secrets, the fixed key list, and every `oauth_state_` key. -/
def disconnectHandler (st : Store) (_revoke : Fetch Unit) : DisconnectResp × Store :=
  let st₁ := (st.delSecret .access_token).delSecret .refresh_token
  let st₂ := keysToDelete.foldl Store.del st₁
  let st₃ := st₂.listOauthStates.foldl Store.del st₂
  (.json true "Successfully disconnected from Google Drive", st₃)

/-! ## Connect handler (`src/server/connect.ts`) -/

/-- Response of the connect handler.  The authorization URL the real
response also carries is a pure string built with the `URL` API from the
client id, redirect URI and state; it touches no store and no claim, so
the modelled response carries the state token alone. -/
inductive ConnectResp
  | json (state : String)
  | error (msg : String) (code : Nat)
deriving DecidableEq, Repr

/-- The connect handler.  `stateTok` stands for the generated random
32-byte hex state token and `userId` for `api.user?.id`. -/
def connectHandler (now : Int) (st : Store) (stateTok : String) (userId : Option String) :
    ConnectResp × Store :=
  if !truthyS (st.getSecret .GOOGLE_CLIENT_ID) then
    (.error
      "Google Drive is not configured. Please set up OAuth credentials in the organization settings."
      400, st)
  else
    (.json stateTok, st.set (.oauth_state stateTok) (.state now userId))

/-! ## OAuth callback handler (`src/server/oauth-callback.ts`) -/

/-- The query parameters of the callback request; absent parameters are
`none`. -/
structure Query where
  code : Option String := none
  state : Option String := none
  error : Option String := none
  error_description : Option String := none
deriving DecidableEq, Repr

/-- Parsed body of a successful authorization-code token exchange. -/
structure TokenJson where
  access_token : String
  refresh_token : Option String := none
  expires_in : Int
  token_type : String
deriving DecidableEq, Repr

/-- Parsed body of a successful userinfo response. -/
structure UserInfoJson where
  email : String
  name : String
  picture : Option String := none
deriving DecidableEq, Repr

/-- Response of the callback handler. -/
inductive CbResp
  | redirect (url : String)
  | error (msg : String) (code : Nat)
deriving DecidableEq, Repr

/-- The settings-page redirect URL carrying an error message. -/
def errRedirect (msg : String) : String :=
  "/settings/extensions/google-drive?error=" ++ encodeURIComponent msg

/-- The OAuth callback handler.  `originHdr`/`hostHdr` are the `origin`
and `host` request headers; `tf` is the outcome of the token exchange,
`uf` of the userinfo fetch.  A throw in either fetch reaches the outer
`try`/`catch`, which redirects with "An unexpected error occurred" —
after the token writes when the userinfo fetch is the one that threw. -/
def oauthCallback (now : Int) (nowIso : String) (q : Query) (originHdr hostHdr : Option String)
    (st : Store) (tf : Fetch TokenJson) (uf : Fetch UserInfoJson) : CbResp × Store :=
  if truthyS q.error then
    (.redirect (errRedirect
      ((if truthyS q.error_description then q.error_description else q.error).getD "")), st)
  else if !truthyS q.code then (.error "Missing authorization code" 400, st)
  else if !truthyS q.state then (.error "Missing state parameter" 400, st)
  else
    let state := q.state.getD ""
    match st.getState (.oauth_state state) with
    | none => (.error "Invalid or expired state token" 400, st)
    | some (createdAt, _) =>
      let stateAge := now - createdAt
      if stateAge > 10 * 60 * 1000 then
        (.error "State token expired. Please try again." 400, st.del (.oauth_state state))
      else
        let st₁ := st.del (.oauth_state state)
        if !truthyS (st₁.getSecret .GOOGLE_CLIENT_ID) ||
            !truthyS (st₁.getSecret .GOOGLE_CLIENT_SECRET) then
          (.error "OAuth credentials not configured" 500, st₁)
        else
          let origin :=
            (if truthyS originHdr then originHdr
             else if truthyS hostHdr then hostHdr else some "").getD ""
          let _redirectUri :=
            (if origin.startsWith "http" then origin else "https://" ++ origin) ++
              "/extensions/blueplm.google-drive/oauth-callback"
          match tf with
          | .throws _ => (.redirect (errRedirect "An unexpected error occurred"), st₁)
          | .notOk _ => (.redirect (errRedirect "Failed to exchange authorization code"), st₁)
          | .ok tokens =>
            let st₂ := st₁.setSecret .access_token tokens.access_token
            let st₃ :=
              if truthyS tokens.refresh_token then
                st₂.setSecret .refresh_token (tokens.refresh_token.getD "")
              else st₂
            let st₄ := st₃.set .token_expires_at (.n (now + tokens.expires_in * 1000))
            match uf with
            | .throws _ => (.redirect (errRedirect "An unexpected error occurred"), st₄)
            | .notOk _ =>
              let st₇ := (st₄.set .connected (.b true)).set .connected_at (.s nowIso)
              (.redirect "/settings/extensions/google-drive?connected=true", st₇)
            | .ok userInfo =>
              let st₅ :=
                (st₄.set .user_email (.s userInfo.email)).set .user_name (.s userInfo.name)
              let st₆ :=
                if truthyS userInfo.picture then
                  st₅.set .user_picture (.s (userInfo.picture.getD ""))
                else st₅
              let st₇ := (st₆.set .connected (.b true)).set .connected_at (.s nowIso)
              (.redirect "/settings/extensions/google-drive?connected=true", st₇)

/-! ## Derived views of the glob translation, used to state its
correctness -/

/-- The combined effect of the three replacement passes of `globToRegex`
on one glob character. -/
def combinedSub (c : Char) : List Char :=
  if c ∈ regexSpecials then ['\\', c]
  else if c = '*' then ['.', '*']
  else if c = '?' then ['.']
  else [c]

/-- The atoms the produced regex parses into, glob character by glob
character: `*` becomes `.*`, `?` becomes `.`, every other character a
(case-folded) literal. -/
def globToks : List Char → List RTok
  | [] => []
  | c :: g =>
    (if c = '*' then RTok.anyStar else if c = '?' then RTok.anyOne else RTok.lit c) ::
      globToks g

/-! ## Basic lemmas about the store operations -/

theorem alookup_erase_self [DecidableEq α] (l : List (α × β)) (k : α) :
    alookup (aerase l k) k = none := by
  induction l with
  | nil => rfl
  | cons p l ih =>
    rw [aerase, List.filter_cons]
    by_cases h : p.1 = k
    · simpa [h, aerase] using ih
    · simpa [h, alookup, aerase] using ih

theorem alookup_erase_ne [DecidableEq α] (l : List (α × β)) {k k' : α} (h : k ≠ k') :
    alookup (aerase l k') k = alookup l k := by
  induction l with
  | nil => rfl
  | cons p l ih =>
    rw [aerase, List.filter_cons]
    by_cases hp : p.1 = k'
    · simpa [hp, alookup, Ne.symm h, aerase] using ih
    · by_cases hk : p.1 = k
      · simp [hp, hk, alookup, aerase, h]
      · simpa [hp, hk, alookup, aerase] using ih

theorem alookup_mem_keys [DecidableEq α] {l : List (α × β)} {k : α} {v : β}
    (h : alookup l k = some v) : k ∈ l.map Prod.fst := by
  induction l with
  | nil => simp [alookup] at h
  | cons p l ih =>
    by_cases hp : p.1 = k
    · simp [hp]
    · simp only [alookup, hp, if_false] at h
      simp [ih h]

namespace Store

@[simp] theorem get_set_self (st : Store) (k : Key) (v : SVal) :
    (st.set k v).get k = some v := by
  simp [get, set, alookup]

theorem get_set_ne (st : Store) {k k' : Key} (h : k ≠ k') (v : SVal) :
    (st.set k' v).get k = st.get k := by
  simp only [get, set, alookup]
  rw [if_neg (fun hk => h hk.symm)]
  exact alookup_erase_ne st.storage h

@[simp] theorem get_del_self (st : Store) (k : Key) :
    (st.del k).get k = none := by
  simp [get, del, alookup_erase_self]

theorem get_del_ne (st : Store) {k k' : Key} (h : k ≠ k') :
    (st.del k').get k = st.get k := alookup_erase_ne st.storage h

@[simp] theorem get_setSecret (st : Store) (sk : SKey) (v : String) (k : Key) :
    (st.setSecret sk v).get k = st.get k := rfl

@[simp] theorem get_delSecret (st : Store) (sk : SKey) (k : Key) :
    (st.delSecret sk).get k = st.get k := rfl

@[simp] theorem getSecret_set (st : Store) (k : Key) (v : SVal) (sk : SKey) :
    (st.set k v).getSecret sk = st.getSecret sk := rfl

@[simp] theorem getSecret_del (st : Store) (k : Key) (sk : SKey) :
    (st.del k).getSecret sk = st.getSecret sk := rfl

@[simp] theorem getSecret_setSecret_self (st : Store) (sk : SKey) (v : String) :
    (st.setSecret sk v).getSecret sk = some v := by
  simp [getSecret, setSecret, alookup]

theorem getSecret_setSecret_ne (st : Store) {sk sk' : SKey} (h : sk ≠ sk') (v : String) :
    (st.setSecret sk' v).getSecret sk = st.getSecret sk := by
  simp only [getSecret, setSecret, alookup]
  rw [if_neg (fun hk => h hk.symm)]
  exact alookup_erase_ne st.secrets h

@[simp] theorem getSecret_delSecret_self (st : Store) (sk : SKey) :
    (st.delSecret sk).getSecret sk = none := by
  simp [getSecret, delSecret, alookup_erase_self]

theorem getSecret_delSecret_ne (st : Store) {sk sk' : SKey} (h : sk ≠ sk') :
    (st.delSecret sk').getSecret sk = st.getSecret sk := alookup_erase_ne st.secrets h

@[simp] theorem get_ite_setSecret (c : Prop) [Decidable c] (st : Store) (sk : SKey)
    (v : String) (k : Key) :
    (if c then st.setSecret sk v else st).get k = st.get k := by
  split <;> simp

theorem get_ite_set_ne (c : Prop) [Decidable c] (st : Store) {k k' : Key} (h : k ≠ k')
    (v : SVal) : (if c then st.set k' v else st).get k = st.get k := by
  split
  · rw [get_set_ne st h]
  · rfl

end Store

/-! ## Lemmas about iterated deletion -/

theorem Store.get_foldl_del_of_none (ks : List Key) (st : Store) (k : Key)
    (h : st.get k = none) : (ks.foldl Store.del st).get k = none := by
  induction ks generalizing st with
  | nil => exact h
  | cons k' ks ih =>
    refine ih (st.del k') ?_
    by_cases hk : k = k'
    · subst hk; simp
    · rwa [Store.get_del_ne st hk]

theorem Store.get_foldl_del_of_mem (ks : List Key) (st : Store) (k : Key)
    (h : k ∈ ks) : (ks.foldl Store.del st).get k = none := by
  induction ks generalizing st with
  | nil => cases h
  | cons k' ks ih =>
    rcases List.mem_cons.mp h with rfl | hk
    · exact Store.get_foldl_del_of_none ks (st.del k) k (by simp)
    · exact ih (st.del k') hk

theorem Store.getSecret_foldl_del (ks : List Key) (st : Store) (sk : SKey) :
    (ks.foldl Store.del st).getSecret sk = st.getSecret sk := by
  induction ks generalizing st with
  | nil => rfl
  | cons k ks ih => simpa using ih (st.del k)

/-! ## C7 — disconnect clears all local connection state -/

/-- C7: for every disconnect-handler run, whatever the outcome of the
upstream token-revocation call (ok, non-ok, or throwing — the handler
ignores it), the final store has both secret entries deleted, every key
of the fixed deletion list (`connected`, `connected_at`,
`token_expires_at`, `user_email`, `user_name`, `user_picture`,
`last_sync_at`, `last_sync_result`, `sync_cursor`) deleted, and no
`oauth_state_`-prefixed key left: the local connection state is empty
afterwards. -/
theorem C7_disconnect_clears_all (st : Store) (revoke : Fetch Unit) :
    (disconnectHandler st revoke).2.getSecret .access_token = none ∧
    (disconnectHandler st revoke).2.getSecret .refresh_token = none ∧
    (disconnectHandler st revoke).2.get .connected = none ∧
    (disconnectHandler st revoke).2.get .connected_at = none ∧
    (disconnectHandler st revoke).2.get .token_expires_at = none ∧
    (disconnectHandler st revoke).2.get .user_email = none ∧
    (disconnectHandler st revoke).2.get .user_name = none ∧
    (disconnectHandler st revoke).2.get .user_picture = none ∧
    (disconnectHandler st revoke).2.get .last_sync_at = none ∧
    (disconnectHandler st revoke).2.get .last_sync_result = none ∧
    (disconnectHandler st revoke).2.get .sync_cursor = none ∧
    ∀ tok : String, (disconnectHandler st revoke).2.get (.oauth_state tok) = none := by
  have hfix : ∀ k ∈ keysToDelete, (disconnectHandler st revoke).2.get k = none := by
    intro k hk
    exact Store.get_foldl_del_of_none _ _ _ (Store.get_foldl_del_of_mem _ _ _ hk)
  have hsec : ∀ sk : SKey,
      (disconnectHandler st revoke).2.getSecret sk =
        (((st.delSecret .access_token).delSecret .refresh_token)).getSecret sk := by
    intro sk
    simp [disconnectHandler, Store.getSecret_foldl_del]
  have hstate : ∀ tok : String, (disconnectHandler st revoke).2.get (.oauth_state tok) = none := by
    intro tok
    by_cases h2 : (keysToDelete.foldl Store.del
        ((st.delSecret .access_token).delSecret .refresh_token)).get (.oauth_state tok) = none
    · exact Store.get_foldl_del_of_none _ _ _ h2
    · rcases Option.ne_none_iff_exists.mp h2 with ⟨v, hv⟩
      have hmem := alookup_mem_keys hv.symm
      refine Store.get_foldl_del_of_mem _ _ _ ?_
      simp only [Store.listOauthStates, List.mem_filter]
      exact ⟨hmem, rfl⟩
  refine ⟨?_, ?_, hfix _ (by simp [keysToDelete]), hfix _ (by simp [keysToDelete]),
    hfix _ (by simp [keysToDelete]), hfix _ (by simp [keysToDelete]),
    hfix _ (by simp [keysToDelete]), hfix _ (by simp [keysToDelete]),
    hfix _ (by simp [keysToDelete]), hfix _ (by simp [keysToDelete]),
    hfix _ (by simp [keysToDelete]), hstate⟩
  · rw [hsec]
    rw [Store.getSecret_delSecret_ne _ (by simp)]
    simp
  · rw [hsec]; simp

/-! ## Facts about the sync stages and token helpers -/

theorem syncUpload_count (a : String) (ps : List String) : (syncUpload a ps).count = 0 := rfl

theorem syncDownload_count (ps : List String) (lf : Fetch (List DriveFile)) :
    (syncDownload ps lf).count = 0 := by
  cases lf <;> rfl

/-- Every failure path of `getValidAccessToken` leaves the store
untouched. -/
theorem getValidAccessToken_none_store (now : Int) (st : Store) (rf : Fetch RefreshData)
    (h : (getValidAccessToken now st rf).1 = none) :
    (getValidAccessToken now st rf).2 = st := by
  by_cases h1 : (truthyS (st.getSecret .access_token) = true ∧
      truthyI (st.getInt .token_expires_at) = true) ∧
      now < (st.getInt .token_expires_at).getD 0 - 300000
  · simp [getValidAccessToken, h1]
  · by_cases h2 : truthyS (st.getSecret .refresh_token) = false
    · simp [getValidAccessToken, h1, h2]
    · by_cases h3 : truthyS (st.getSecret .GOOGLE_CLIENT_ID) = false ∨
          truthyS (st.getSecret .GOOGLE_CLIENT_SECRET) = false
      · simp [getValidAccessToken, h1, h2, h3]
      · cases rf with
        | ok d => simp [getValidAccessToken, h1, h2, h3] at h
        | notOk b => simp [getValidAccessToken, h1, h2, h3]
        | throws m => simp [getValidAccessToken, h1, h2, h3]

/-- A refresh whose token-endpoint fetch is not a successful response
(non-ok or throwing) reports failure. -/
theorem refreshAccessToken_fail (now : Int) (st : Store) {rf : Fetch RefreshData}
    (h : ∀ d, rf ≠ .ok d) : (refreshAccessToken now st rf).1 = false := by
  unfold refreshAccessToken
  split
  · rfl
  · split
    · rfl
    · cases rf with
      | ok d => exact absurd rfl (h d)
      | notOk _ => rfl
      | throws _ => rfl

/-- A stage that either did not run or ran with a zero count contributes
a zero count. -/
theorem count_opt_zero {c : Prop} [Decidable c] (x : StageResult) (hx : x.count = 0) :
    (Option.map StageResult.count (if c then some x else none)).getD 0 = 0 := by
  split <;> simp [hx]

/-! ## C8 — sync counts are always zero -/

/-- C8: every sync-handler run that produces a JSON result reports
`uploaded = 0` and `downloaded = 0` — the upload stage is a stub
returning zero counts and the download stage only lists remote files —
hence `synced = uploaded + downloaded = 0`, and its `success` flag is
`true` exactly when the aggregated error count across the stages is
zero. -/
theorem C8_sync_counts_zero (now : Int) (nowIso : String) (st : Store)
    (rf : Fetch RefreshData) (lf : Fetch (List DriveFile)) (r : SyncResult)
    (h : (syncHandler now nowIso st rf lf).resp = .json r) :
    r.uploaded = 0 ∧ r.downloaded = 0 ∧ r.synced = 0 ∧ (r.success = true ↔ r.errors = 0) := by
  unfold syncHandler at h
  split at h
  · exact absurd h (by simp)
  · split at h
    · exact absurd h (by simp)
    · simp only [SyncResp.json.injEq] at h
      subst h
      refine ⟨count_opt_zero _ (syncUpload_count _ _), count_opt_zero _ (syncDownload_count _ _),
        ?_, ?_⟩
      · rw [show (SyncResult.synced _) =
            (Option.map StageResult.count _).getD 0 + (Option.map StageResult.count _).getD 0
            from rfl,
          count_opt_zero _ (syncUpload_count _ _), count_opt_zero _ (syncDownload_count _ _)]
      · simp only [decide_eq_true_eq]

/-- C8 witness: a concrete successful run — connected, fresh token, an
ok listing — yields the all-zero result with `success = true`. -/
theorem C8_sync_counts_zero_witness :
    (syncHandler 0 "2024-01-01T00:00:00.000Z"
        ⟨[(.connected, .b true), (.token_expires_at, .n 10000000)], [(.access_token, "tok")]⟩
        (.notOk "") (.ok [])).resp = .json ⟨true, 0, 0, 0, 0, []⟩ ∧
    (0 = 0 ∧ 0 = 0 ∧ 0 = 0 ∧ (true = true ↔ 0 = 0)) := by
  refine ⟨by decide, ?_⟩
  exact C8_sync_counts_zero 0 "2024-01-01T00:00:00.000Z"
    ⟨[(.connected, .b true), (.token_expires_at, .n 10000000)], [(.access_token, "tok")]⟩
    (.notOk "") (.ok []) ⟨true, 0, 0, 0, 0, []⟩ (by decide)

/-! ## C6 — sync dispatch by direction -/

/-- C6: in every sync-handler run that reaches the dispatch stage
(connection verified, access token obtained), the upload stage is
invoked exactly when the effective `syncDirection` is `bidirectional` or
`upload-only`, and the download stage — whose invocation is what issues
the remote file-listing network call — exactly when it is
`bidirectional` or `download-only`; `bidirectional` is also the default
when no direction (or no config record) is stored. -/
theorem C6_sync_dispatch (now : Int) (nowIso : String) (st st₁ : Store)
    (rf : Fetch RefreshData) (lf : Fetch (List DriveFile)) (tok : String)
    (hconn : truthyB (st.getBool .connected) = true)
    (htok : getValidAccessToken now st rf = (some tok, st₁)) :
    (syncHandler now nowIso st rf lf).uploadCalled =
      (decide ((((st₁.getCfg .config).getD {}).syncDirection.getD .bidirectional) = .bidirectional) ||
        decide ((((st₁.getCfg .config).getD {}).syncDirection.getD .bidirectional) = .uploadOnly)) ∧
    (syncHandler now nowIso st rf lf).downloadCalled =
      (decide ((((st₁.getCfg .config).getD {}).syncDirection.getD .bidirectional) = .bidirectional) ||
        decide ((((st₁.getCfg .config).getD {}).syncDirection.getD .bidirectional) = .downloadOnly)) := by
  simp [syncHandler, hconn, htok]

/-- C6 witness: with `syncDirection = 'upload-only'` the upload stage
runs and the download stage (and its network call) does not. -/
theorem C6_sync_dispatch_witness :
    (syncHandler 0 "2024-01-01T00:00:00.000Z"
        ⟨[(.connected, .b true), (.token_expires_at, .n 10000000),
          (.config, .cfg ⟨some .uploadOnly, none⟩)], [(.access_token, "tok")]⟩
        (.notOk "") (.notOk "")).uploadCalled = true ∧
    (syncHandler 0 "2024-01-01T00:00:00.000Z"
        ⟨[(.connected, .b true), (.token_expires_at, .n 10000000),
          (.config, .cfg ⟨some .uploadOnly, none⟩)], [(.access_token, "tok")]⟩
        (.notOk "") (.notOk "")).downloadCalled = false := by
  have h := C6_sync_dispatch 0 "2024-01-01T00:00:00.000Z"
    ⟨[(.connected, .b true), (.token_expires_at, .n 10000000),
      (.config, .cfg ⟨some .uploadOnly, none⟩)], [(.access_token, "tok")]⟩
    ⟨[(.connected, .b true), (.token_expires_at, .n 10000000),
      (.config, .cfg ⟨some .uploadOnly, none⟩)], [(.access_token, "tok")]⟩
    (.notOk "") (.notOk "") "tok" (by decide) (by decide)
  exact ⟨h.1.trans (by decide), h.2.trans (by decide)⟩

/-! ## C9 — corrected: when the sync bookkeeping keys are written -/

/-- C9 counterexample: an invocation of the sync handler that fails
authentication returns without writing the bookkeeping keys — with
`connected = true` stored but no tokens at all, the run returns a 401
error and the final storage holds neither `last_sync_at` nor
`last_sync_result`, refuting "every invocation … writes `last_sync_at`
and `last_sync_result` to storage before returning". -/
theorem C9_counterexample :
    (syncHandler 0 "2024-01-01T00:00:00.000Z" ⟨[(.connected, .b true)], []⟩
        (.notOk "") (.notOk "")).resp =
      .error "Failed to get access token. Please reconnect." 401 ∧
    (syncHandler 0 "2024-01-01T00:00:00.000Z" ⟨[(.connected, .b true)], []⟩
        (.notOk "") (.notOk "")).store.get .last_sync_at = none ∧
    (syncHandler 0 "2024-01-01T00:00:00.000Z" ⟨[(.connected, .b true)], []⟩
        (.notOk "") (.notOk "")).store.get .last_sync_result = none := by
  exact ⟨rfl, rfl, rfl⟩

/-- C9 (amended): the sync handler writes `last_sync_at` and
`last_sync_result` exactly in the runs that reach the sync pass: a run
that passes the connection check and obtains an access token writes both
keys whatever the stage outcomes (stage errors included), while a run
that fails the connection check or cannot obtain a token returns a 401
error with the store unchanged — neither key written. -/
theorem C9_amended_bookkeeping (now : Int) (nowIso : String) (st : Store)
    (rf : Fetch RefreshData) (lf : Fetch (List DriveFile)) :
    (truthyB (st.getBool .connected) = false →
      (syncHandler now nowIso st rf lf).resp = .error "Not connected to Google Drive" 401 ∧
      (syncHandler now nowIso st rf lf).store = st) ∧
    (truthyB (st.getBool .connected) = true →
      (getValidAccessToken now st rf).1 = none →
      (syncHandler now nowIso st rf lf).resp =
        .error "Failed to get access token. Please reconnect." 401 ∧
      (syncHandler now nowIso st rf lf).store = st) ∧
    (truthyB (st.getBool .connected) = true →
      ∀ tok st₁, getValidAccessToken now st rf = (some tok, st₁) →
      ∃ r, (syncHandler now nowIso st rf lf).resp = .json r ∧
        (syncHandler now nowIso st rf lf).store.get .last_sync_at = some (.s nowIso) ∧
        (syncHandler now nowIso st rf lf).store.get .last_sync_result = some (.res r)) := by
  refine ⟨?_, ?_, ?_⟩
  · intro hconn
    simp [syncHandler, hconn]
  · intro hconn hnone
    have hst := getValidAccessToken_none_store now st rf hnone
    rcases hv : getValidAccessToken now st rf with ⟨otok, st₁⟩
    rw [hv] at hnone hst
    simp only [] at hnone hst
    subst hnone
    subst hst
    simp [syncHandler, hconn, hv]
  · intro hconn tok st₁ htok
    cases hresp : (syncHandler now nowIso st rf lf).resp with
    | error m c => simp [syncHandler, hconn, htok] at hresp
    | json r =>
      refine ⟨r, rfl, ?_, ?_⟩
      · simp only [syncHandler, hconn, Bool.not_true, Bool.false_eq_true, if_false, htok]
        rw [Store.get_set_ne _ (by simp), Store.get_set_self]
      · simp only [syncHandler, hconn, Bool.not_true, Bool.false_eq_true, if_false, htok]
          at hresp ⊢
        rw [Store.get_set_self]
        simp only [SyncResp.json.injEq] at hresp
        rw [hresp]

/-- C9 witness: the amended theorem applied at concrete inputs — a run
failing the connection check, a run failing the token step, and a run
reaching the sync pass which writes both keys. -/
theorem C9_amended_bookkeeping_witness :
    ((syncHandler 0 "2024-01-01T00:00:00.000Z" ⟨[], []⟩ (.notOk "") (.notOk "")).resp =
        .error "Not connected to Google Drive" 401 ∧
      (syncHandler 0 "2024-01-01T00:00:00.000Z" ⟨[], []⟩ (.notOk "") (.notOk "")).store = ⟨[], []⟩) ∧
    ((syncHandler 0 "2024-01-01T00:00:00.000Z" ⟨[(.connected, .b true)], []⟩
          (.notOk "") (.notOk "")).resp =
        .error "Failed to get access token. Please reconnect." 401 ∧
      (syncHandler 0 "2024-01-01T00:00:00.000Z" ⟨[(.connected, .b true)], []⟩
          (.notOk "") (.notOk "")).store = ⟨[(.connected, .b true)], []⟩) ∧
    (∃ r, (syncHandler 0 "2024-01-01T00:00:00.000Z"
          ⟨[(.connected, .b true), (.token_expires_at, .n 10000000)], [(.access_token, "tok")]⟩
          (.notOk "") (.ok [])).resp = .json r ∧
      (syncHandler 0 "2024-01-01T00:00:00.000Z"
          ⟨[(.connected, .b true), (.token_expires_at, .n 10000000)], [(.access_token, "tok")]⟩
          (.notOk "") (.ok [])).store.get .last_sync_at =
        some (.s "2024-01-01T00:00:00.000Z") ∧
      (syncHandler 0 "2024-01-01T00:00:00.000Z"
          ⟨[(.connected, .b true), (.token_expires_at, .n 10000000)], [(.access_token, "tok")]⟩
          (.notOk "") (.ok [])).store.get .last_sync_result = some (.res r)) := by
  refine ⟨?_, ?_, ?_⟩
  · exact (C9_amended_bookkeeping 0 "2024-01-01T00:00:00.000Z" ⟨[], []⟩
      (.notOk "") (.notOk "")).1 (by decide)
  · exact (C9_amended_bookkeeping 0 "2024-01-01T00:00:00.000Z" ⟨[(.connected, .b true)], []⟩
      (.notOk "") (.notOk "")).2.1 (by decide) (by decide)
  · exact (C9_amended_bookkeeping 0 "2024-01-01T00:00:00.000Z"
      ⟨[(.connected, .b true), (.token_expires_at, .n 10000000)], [(.access_token, "tok")]⟩
      (.notOk "") (.ok [])).2.2 (by decide) "tok"
      ⟨[(.connected, .b true), (.token_expires_at, .n 10000000)], [(.access_token, "tok")]⟩
      (by decide)

/-! ## C3 — corrected: which handlers restore the connected invariant -/

/-- C3 counterexample: the sync handler observes `connected = true`
while no non-expired or refreshable access token exists (token long
expired, refresh endpoint answering non-ok) and does not reset
`connected`: it returns a 401 error and `connected` is still `true` in
storage afterwards — refuting "every server handler … resets connected
to false before returning; in particular … the sync handler". -/
theorem C3_counterexample :
    (syncHandler 1000000000 "2024-01-01T00:00:00.000Z"
        ⟨[(.connected, .b true), (.token_expires_at, .n 1000)],
         [(.access_token, "old"), (.refresh_token, "rt"),
          (.GOOGLE_CLIENT_ID, "id"), (.GOOGLE_CLIENT_SECRET, "secret")]⟩
        (.notOk "401 invalid_grant") (.notOk "")).resp =
      .error "Failed to get access token. Please reconnect." 401 ∧
    (syncHandler 1000000000 "2024-01-01T00:00:00.000Z"
        ⟨[(.connected, .b true), (.token_expires_at, .n 1000)],
         [(.access_token, "old"), (.refresh_token, "rt"),
          (.GOOGLE_CLIENT_ID, "id"), (.GOOGLE_CLIENT_SECRET, "secret")]⟩
        (.notOk "401 invalid_grant") (.notOk "")).store.getBool .connected = some true := by
  exact ⟨rfl, rfl⟩

/-- C3 (amended): of the two handlers, only the status handler restores
the invariant, and only on its refresh path: when it observes
`connected = true` with a present access token and expiry within 60
seconds whose refresh fails, it sets `connected` to `false`; the sync
handler, when it cannot obtain a valid access token, returns a 401 error
and leaves the store — `connected` included — unchanged. -/
theorem C3_amended_invariant (now : Int) (nowIso : String) (st : Store)
    (rf : Fetch RefreshData) (qf : Fetch AboutData) (lf : Fetch (List DriveFile)) :
    (truthyB (st.getBool .connected) = true →
      (truthyS (st.getSecret .access_token) && truthyI (st.getInt .token_expires_at) &&
        decide (now ≥ (st.getInt .token_expires_at).getD 0 - 60000)) = true →
      (refreshAccessToken now st rf).1 = false →
      (statusHandler now st rf qf).resp = { connected := false } ∧
      (statusHandler now st rf qf).store.getBool .connected = some false) ∧
    (truthyB (st.getBool .connected) = true →
      (getValidAccessToken now st rf).1 = none →
      (syncHandler now nowIso st rf lf).resp =
        .error "Failed to get access token. Please reconnect." 401 ∧
      (syncHandler now nowIso st rf lf).store = st) := by
  refine ⟨?_, ?_⟩
  · intro hconn hneed hfail
    rcases hr : refreshAccessToken now st rf with ⟨b, st₁⟩
    rw [hr] at hfail
    simp only [] at hfail
    subst hfail
    unfold statusHandler
    rw [hconn]
    simp only [Bool.not_true, Bool.false_eq_true, if_false]
    rw [if_pos hneed, hr]
    exact ⟨rfl, by simp [Store.getBool]⟩
  · intro hconn hnone
    have hst := getValidAccessToken_none_store now st rf hnone
    rcases hv : getValidAccessToken now st rf with ⟨otok, st₁⟩
    rw [hv] at hnone hst
    simp only [] at hnone hst
    subst hnone
    subst hst
    simp [syncHandler, hconn, hv]

/-- C3 witness: the amended theorem at concrete inputs — a status run
whose due refresh is answered non-ok flips `connected` to false; a sync
run that cannot refresh leaves `connected = true` behind. -/
theorem C3_amended_invariant_witness :
    ((statusHandler 1000000000
        ⟨[(.connected, .b true), (.token_expires_at, .n 1000)],
         [(.access_token, "old"), (.refresh_token, "rt"),
          (.GOOGLE_CLIENT_ID, "id"), (.GOOGLE_CLIENT_SECRET, "secret")]⟩
        (.notOk "401 invalid_grant") (.notOk "")).resp = { connected := false } ∧
      (statusHandler 1000000000
        ⟨[(.connected, .b true), (.token_expires_at, .n 1000)],
         [(.access_token, "old"), (.refresh_token, "rt"),
          (.GOOGLE_CLIENT_ID, "id"), (.GOOGLE_CLIENT_SECRET, "secret")]⟩
        (.notOk "401 invalid_grant") (.notOk "")).store.getBool .connected = some false) ∧
    ((syncHandler 1000000000 "2024-01-01T00:00:00.000Z"
        ⟨[(.connected, .b true), (.token_expires_at, .n 1000)],
         [(.access_token, "old"), (.refresh_token, "rt"),
          (.GOOGLE_CLIENT_ID, "id"), (.GOOGLE_CLIENT_SECRET, "secret")]⟩
        (.notOk "401 invalid_grant") (.notOk "")).resp =
        .error "Failed to get access token. Please reconnect." 401 ∧
      (syncHandler 1000000000 "2024-01-01T00:00:00.000Z"
        ⟨[(.connected, .b true), (.token_expires_at, .n 1000)],
         [(.access_token, "old"), (.refresh_token, "rt"),
          (.GOOGLE_CLIENT_ID, "id"), (.GOOGLE_CLIENT_SECRET, "secret")]⟩
        (.notOk "401 invalid_grant") (.notOk "")).store =
        ⟨[(.connected, .b true), (.token_expires_at, .n 1000)],
         [(.access_token, "old"), (.refresh_token, "rt"),
          (.GOOGLE_CLIENT_ID, "id"), (.GOOGLE_CLIENT_SECRET, "secret")]⟩) := by
  have h := C3_amended_invariant 1000000000 "2024-01-01T00:00:00.000Z"
    ⟨[(.connected, .b true), (.token_expires_at, .n 1000)],
     [(.access_token, "old"), (.refresh_token, "rt"),
      (.GOOGLE_CLIENT_ID, "id"), (.GOOGLE_CLIENT_SECRET, "secret")]⟩
    (.notOk "401 invalid_grant") (.notOk "") (.notOk "401 invalid_grant")
  exact ⟨h.1 (by decide) (by decide) (by decide), h.2 (by decide) (by decide)⟩

/-! ## C4 — status handler on refresh failure -/

/-- C4: in every status-handler run with `connected = true` where the
stored token and expiry make the opportunistic refresh due (expiry
within 60 seconds of now, or past), a refresh whose token-endpoint
fetch is not a success — a non-ok response such as a 401, or a throw —
results in `connected` being set to `false` in storage and the bare
`{connected: false}` response.  The handler never propagates an
exception from the refresh: `refreshAccessToken` maps the `throws`
outcome to an ordinary `false` result (the `try`/`catch` of the
source), so the run always returns a value. -/
theorem C4_status_refresh_failure (now : Int) (st : Store)
    (rf : Fetch RefreshData) (qf : Fetch AboutData)
    (hconn : truthyB (st.getBool .connected) = true)
    (hneed : (truthyS (st.getSecret .access_token) && truthyI (st.getInt .token_expires_at) &&
      decide (now ≥ (st.getInt .token_expires_at).getD 0 - 60000)) = true)
    (hfail : ∀ d, rf ≠ Fetch.ok d) :
    (statusHandler now st rf qf).resp = { connected := false } ∧
    (statusHandler now st rf qf).store.getBool .connected = some false := by
  have hf := refreshAccessToken_fail now st hfail
  rcases hr : refreshAccessToken now st rf with ⟨b, st₁⟩
  rw [hr] at hf
  simp only [] at hf
  subst hf
  unfold statusHandler
  rw [hconn]
  simp only [Bool.not_true, Bool.false_eq_true, if_false]
  rw [if_pos hneed, hr]
  exact ⟨rfl, by simp [Store.getBool]⟩

/-- C4 witness: concrete runs for both failure kinds — the refresh
endpoint answering 401 and the refresh request throwing — each yield the
disconnected response and `connected = false` in storage. -/
theorem C4_status_refresh_failure_witness :
    ((statusHandler 1000000000
        ⟨[(.connected, .b true), (.token_expires_at, .n 1000)],
         [(.access_token, "old"), (.refresh_token, "rt"),
          (.GOOGLE_CLIENT_ID, "id"), (.GOOGLE_CLIENT_SECRET, "secret")]⟩
        (.notOk "401 invalid_grant") (.ok {})).resp = { connected := false } ∧
      (statusHandler 1000000000
        ⟨[(.connected, .b true), (.token_expires_at, .n 1000)],
         [(.access_token, "old"), (.refresh_token, "rt"),
          (.GOOGLE_CLIENT_ID, "id"), (.GOOGLE_CLIENT_SECRET, "secret")]⟩
        (.notOk "401 invalid_grant") (.ok {})).store.getBool .connected = some false) ∧
    ((statusHandler 1000000000
        ⟨[(.connected, .b true), (.token_expires_at, .n 1000)],
         [(.access_token, "old"), (.refresh_token, "rt"),
          (.GOOGLE_CLIENT_ID, "id"), (.GOOGLE_CLIENT_SECRET, "secret")]⟩
        (.throws "network failure") (.ok {})).resp = { connected := false } ∧
      (statusHandler 1000000000
        ⟨[(.connected, .b true), (.token_expires_at, .n 1000)],
         [(.access_token, "old"), (.refresh_token, "rt"),
          (.GOOGLE_CLIENT_ID, "id"), (.GOOGLE_CLIENT_SECRET, "secret")]⟩
        (.throws "network failure") (.ok {})).store.getBool .connected = some false) := by
  constructor
  · exact C4_status_refresh_failure 1000000000
      ⟨[(.connected, .b true), (.token_expires_at, .n 1000)],
       [(.access_token, "old"), (.refresh_token, "rt"),
        (.GOOGLE_CLIENT_ID, "id"), (.GOOGLE_CLIENT_SECRET, "secret")]⟩
      (.notOk "401 invalid_grant") (.ok {}) (by decide) (by decide)
      (fun d h => by cases h)
  · exact C4_status_refresh_failure 1000000000
      ⟨[(.connected, .b true), (.token_expires_at, .n 1000)],
       [(.access_token, "old"), (.refresh_token, "rt"),
        (.GOOGLE_CLIENT_ID, "id"), (.GOOGLE_CLIENT_SECRET, "secret")]⟩
      (.throws "network failure") (.ok {}) (by decide) (by decide)
      (fun d h => by cases h)

/-! ## C10 — the quota request carries the pre-refresh token -/

/-- C10: whenever the status handler issues the quota-information
request, the token it carries is the access token read from the secret
store before the opportunistic refresh — in particular, when a refresh
has just stored a new access token, the quota fetch still carries the
old (expiring) one rather than the newly stored one. -/
theorem C10_quota_prerefresh_token (now : Int) (st : Store)
    (rf : Fetch RefreshData) (qf : Fetch AboutData) (v : Option String)
    (h : (statusHandler now st rf qf).quotaReq = some v) :
    v = st.getSecret .access_token := by
  cases hconn : truthyB (st.getBool .connected) with
  | false => simp [statusHandler, hconn] at h
  | true =>
    revert h
    unfold statusHandler
    rw [hconn]
    simp only [Bool.not_true, Bool.false_eq_true, if_false]
    generalize (if (truthyS (st.getSecret SKey.access_token) &&
        truthyI (st.getInt Key.token_expires_at) &&
        decide (now ≥ (st.getInt Key.token_expires_at).getD 0 - 60000) : Bool)
      then refreshAccessToken now st rf else (true, st)) = step
    rcases step with ⟨b, st₁⟩
    cases b
    · intro h; exact absurd h (by simp)
    · intro h
      simp only [Option.some.injEq] at h
      exact h.symm

/-- C10 witness: a run whose refresh succeeds and stores the new token
`"new"` still issues the quota request with the old token `"old"`. -/
theorem C10_quota_prerefresh_token_witness :
    (statusHandler 1000000000
        ⟨[(.connected, .b true), (.token_expires_at, .n 1000)],
         [(.access_token, "old"), (.refresh_token, "rt"),
          (.GOOGLE_CLIENT_ID, "id"), (.GOOGLE_CLIENT_SECRET, "secret")]⟩
        (.ok ⟨"new", 3600⟩) (.notOk "")).quotaReq = some (some "old") ∧
    (statusHandler 1000000000
        ⟨[(.connected, .b true), (.token_expires_at, .n 1000)],
         [(.access_token, "old"), (.refresh_token, "rt"),
          (.GOOGLE_CLIENT_ID, "id"), (.GOOGLE_CLIENT_SECRET, "secret")]⟩
        (.ok ⟨"new", 3600⟩) (.notOk "")).store.getSecret .access_token = some "new" ∧
    (some "old" : Option String) =
      (⟨[(.connected, .b true), (.token_expires_at, .n 1000)],
        [(.access_token, "old"), (.refresh_token, "rt"),
         (.GOOGLE_CLIENT_ID, "id"), (.GOOGLE_CLIENT_SECRET, "secret")]⟩ : Store).getSecret
        .access_token := by
  refine ⟨by decide, by decide, ?_⟩
  exact C10_quota_prerefresh_token 1000000000
    ⟨[(.connected, .b true), (.token_expires_at, .n 1000)],
     [(.access_token, "old"), (.refresh_token, "rt"),
      (.GOOGLE_CLIENT_ID, "id"), (.GOOGLE_CLIENT_SECRET, "secret")]⟩
    (.ok ⟨"new", 3600⟩) (.notOk "") (some "old") (by decide)

/-! ## Lemmas about the OAuth callback's state handling -/

/-- A store key that the storage lookup misses reads as a missing state
record. -/
theorem Store.getState_none (st : Store) (k : Key) (h : st.get k = none) :
    st.getState k = none := by
  simp [Store.getState, h]

/-- Every branch of the callback that gets past the `code`/`state`
checks and finds a stored state record deletes it before returning,
whatever the record's age and the fetch outcomes. -/
theorem oauthCallback_state_consumed (now : Int) (nowIso : String) (q : Query)
    (oh hh : Option String) (st : Store) (tf : Fetch TokenJson) (uf : Fetch UserInfoJson)
    (s : String) (c : Int) (u : Option String)
    (herr : truthyS q.error = false) (hcode : truthyS q.code = true)
    (hstate : q.state = some s) (hs : s ≠ "")
    (hrec : st.getState (.oauth_state s) = some (c, u)) :
    (oauthCallback now nowIso q oh hh st tf uf).2.get (.oauth_state s) = none := by
  have htr : truthyS q.state = true := by rw [hstate]; simpa [truthyS] using hs
  have hgd : q.state.getD "" = s := by rw [hstate]; rfl
  simp only [oauthCallback, herr, Bool.false_eq_true, if_false, hcode, htr, Bool.not_true,
    hgd, hrec]
  split
  · simp
  · split
    · simp
    · cases tf with
      | throws m => simp
      | notOk b => simp
      | ok tokens =>
        cases uf with
        | throws m =>
          rw [Store.get_set_ne _ (by simp), Store.get_ite_setSecret, Store.get_setSecret,
            Store.get_del_self]
        | notOk b =>
          rw [Store.get_set_ne _ (by simp), Store.get_set_ne _ (by simp),
            Store.get_set_ne _ (by simp), Store.get_ite_setSecret, Store.get_setSecret,
            Store.get_del_self]
        | ok userInfo =>
          rw [Store.get_set_ne _ (by simp), Store.get_set_ne _ (by simp),
            Store.get_ite_set_ne _ _ (by simp), Store.get_set_ne _ (by simp),
            Store.get_set_ne _ (by simp), Store.get_set_ne _ (by simp),
            Store.get_ite_setSecret, Store.get_setSecret, Store.get_del_self]

/-- A callback presenting a state value with no stored record is
rejected with the invalid-state error. -/
theorem oauthCallback_invalid_state (now : Int) (nowIso : String) (q : Query)
    (oh hh : Option String) (st : Store) (tf : Fetch TokenJson) (uf : Fetch UserInfoJson)
    (s : String)
    (herr : truthyS q.error = false) (hcode : truthyS q.code = true)
    (hstate : q.state = some s) (hs : s ≠ "")
    (hrec : st.getState (.oauth_state s) = none) :
    (oauthCallback now nowIso q oh hh st tf uf).1 =
      .error "Invalid or expired state token" 400 := by
  have htr : truthyS q.state = true := by rw [hstate]; simpa [truthyS] using hs
  have hgd : q.state.getD "" = s := by rw [hstate]; rfl
  simp only [oauthCallback, herr, Bool.false_eq_true, if_false, hcode, htr, Bool.not_true,
    hgd, hrec]

/-! ## C1 — a state token is accepted at most once -/

/-- C1: a state token stored by the connect handler less than 10
minutes earlier is accepted at most once by the callback: the first
callback presenting it (with `code` and `state` present and no OAuth
error) deletes the stored record — whatever the token/userinfo fetch
outcomes — and a second callback presenting the same state value is
rejected with the `Invalid or expired state token` 400 error, the
stored state being absent. -/
theorem C1_state_single_use (now₀ now now' : Int) (nowIso nowIso' : String) (q : Query)
    (oh hh oh' hh' : Option String) (st : Store) (stateTok : String) (userId : Option String)
    (tf tf' : Fetch TokenJson) (uf uf' : Fetch UserInfoJson)
    (hcid : truthyS (st.getSecret .GOOGLE_CLIENT_ID) = true)
    (herr : truthyS q.error = false) (hcode : truthyS q.code = true)
    (hstate : q.state = some stateTok) (hs : stateTok ≠ "")
    (_hfresh : now - now₀ < 10 * 60 * 1000) :
    (oauthCallback now nowIso q oh hh (connectHandler now₀ st stateTok userId).2 tf uf).2.get
        (.oauth_state stateTok) = none ∧
    (oauthCallback now' nowIso' q oh' hh'
        (oauthCallback now nowIso q oh hh (connectHandler now₀ st stateTok userId).2 tf uf).2
        tf' uf').1 = .error "Invalid or expired state token" 400 := by
  have hst₀ : (connectHandler now₀ st stateTok userId).2 =
      st.set (.oauth_state stateTok) (.state now₀ userId) := by
    simp [connectHandler, hcid]
  have hrec : ((connectHandler now₀ st stateTok userId).2).getState (.oauth_state stateTok) =
      some (now₀, userId) := by
    rw [hst₀]; simp [Store.getState]
  have hdel := oauthCallback_state_consumed now nowIso q oh hh
    (connectHandler now₀ st stateTok userId).2 tf uf stateTok now₀ userId
    herr hcode hstate hs hrec
  exact ⟨hdel, oauthCallback_invalid_state now' nowIso' q oh' hh' _ tf' uf' stateTok
    herr hcode hstate hs (Store.getState_none _ _ hdel)⟩

/-- C1 witness: a concrete connect-then-callback-twice run — the first
callback succeeds and deletes the state, the second is rejected. -/
theorem C1_state_single_use_witness :
    (oauthCallback 1000 "2024-01-01T00:00:00.000Z"
        ⟨some "authcode", some "stok", none, none⟩ (some "https://plm.example") none
        ((connectHandler 0 ⟨[], [(.GOOGLE_CLIENT_ID, "id"), (.GOOGLE_CLIENT_SECRET, "sec")]⟩
          "stok" (some "user-1")).2)
        (.ok ⟨"at", some "rt", 3600, "Bearer"⟩) (.ok ⟨"e@example.com", "E", none⟩)).2.get
      (.oauth_state "stok") = none ∧
    (oauthCallback 2000 "2024-01-01T00:00:01.000Z"
        ⟨some "authcode", some "stok", none, none⟩ (some "https://plm.example") none
        ((oauthCallback 1000 "2024-01-01T00:00:00.000Z"
          ⟨some "authcode", some "stok", none, none⟩ (some "https://plm.example") none
          ((connectHandler 0 ⟨[], [(.GOOGLE_CLIENT_ID, "id"), (.GOOGLE_CLIENT_SECRET, "sec")]⟩
            "stok" (some "user-1")).2)
          (.ok ⟨"at", some "rt", 3600, "Bearer"⟩) (.ok ⟨"e@example.com", "E", none⟩)).2)
        (.ok ⟨"at2", some "rt2", 3600, "Bearer"⟩) (.ok ⟨"e@example.com", "E", none⟩)).1 =
      .error "Invalid or expired state token" 400 := by
  exact C1_state_single_use 0 1000 2000 "2024-01-01T00:00:00.000Z" "2024-01-01T00:00:01.000Z"
    ⟨some "authcode", some "stok", none, none⟩ (some "https://plm.example") none
    (some "https://plm.example") none
    ⟨[], [(.GOOGLE_CLIENT_ID, "id"), (.GOOGLE_CLIENT_SECRET, "sec")]⟩ "stok" (some "user-1")
    (.ok ⟨"at", some "rt", 3600, "Bearer"⟩) (.ok ⟨"at2", some "rt2", 3600, "Bearer"⟩)
    (.ok ⟨"e@example.com", "E", none⟩) (.ok ⟨"e@example.com", "E", none⟩)
    (by decide) (by decide) (by decide) (by decide) (by decide) (by decide)

/-! ## C2 — expired state tokens are rejected and swept -/

/-- C2: a callback presenting a state token whose stored `createdAt` is
more than 10 minutes before the current time is rejected with the
expiry 400 error, and the stale state record is deleted from storage
before returning. -/
theorem C2_expired_state (now : Int) (nowIso : String) (q : Query)
    (oh hh : Option String) (st : Store) (tf : Fetch TokenJson) (uf : Fetch UserInfoJson)
    (s : String) (c : Int) (u : Option String)
    (herr : truthyS q.error = false) (hcode : truthyS q.code = true)
    (hstate : q.state = some s) (hs : s ≠ "")
    (hrec : st.getState (.oauth_state s) = some (c, u))
    (hold : now - c > 10 * 60 * 1000) :
    (oauthCallback now nowIso q oh hh st tf uf).1 =
      .error "State token expired. Please try again." 400 ∧
    (oauthCallback now nowIso q oh hh st tf uf).2.get (.oauth_state s) = none := by
  have htr : truthyS q.state = true := by rw [hstate]; simpa [truthyS] using hs
  have hgd : q.state.getD "" = s := by rw [hstate]; rfl
  simp only [oauthCallback, herr, Bool.false_eq_true, if_false, hcode, htr, Bool.not_true,
    hgd, hrec]
  rw [if_pos hold]
  exact ⟨rfl, by simp⟩

/-- C2 witness: a concrete callback 11⅔ minutes after the state was
stored is rejected with the expiry error and deletes the record. -/
theorem C2_expired_state_witness :
    (oauthCallback 700000 "2024-01-01T00:11:40.000Z"
        ⟨some "authcode", some "stok", none, none⟩ (some "https://plm.example") none
        ⟨[(.oauth_state "stok", .state 0 none)],
         [(.GOOGLE_CLIENT_ID, "id"), (.GOOGLE_CLIENT_SECRET, "sec")]⟩
        (.notOk "") (.notOk "")).1 = .error "State token expired. Please try again." 400 ∧
    (oauthCallback 700000 "2024-01-01T00:11:40.000Z"
        ⟨some "authcode", some "stok", none, none⟩ (some "https://plm.example") none
        ⟨[(.oauth_state "stok", .state 0 none)],
         [(.GOOGLE_CLIENT_ID, "id"), (.GOOGLE_CLIENT_SECRET, "sec")]⟩
        (.notOk "") (.notOk "")).2.get (.oauth_state "stok") = none := by
  exact C2_expired_state 700000 "2024-01-01T00:11:40.000Z"
    ⟨some "authcode", some "stok", none, none⟩ (some "https://plm.example") none
    ⟨[(.oauth_state "stok", .state 0 none)],
     [(.GOOGLE_CLIENT_ID, "id"), (.GOOGLE_CLIENT_SECRET, "sec")]⟩
    (.notOk "") (.notOk "") "stok" 0 none
    (by decide) (by decide) (by decide) (by decide) (by decide) (by decide)

/-! ## The glob translation: the produced regex and its semantics -/

theorem escapeStep_cons (c : Char) (g : List Char) :
    escapeStep (c :: g) = escapeChar c ++ escapeStep g := by
  simp [escapeStep]

theorem starStep_append (a b : List Char) :
    starStep (a ++ b) = starStep a ++ starStep b := by
  simp [starStep]

theorem qmarkStep_append (a b : List Char) :
    qmarkStep (a ++ b) = qmarkStep a ++ qmarkStep b := by
  simp [qmarkStep]

/-- The three passes of `globToRegex` amount to the per-character
substitution `combinedSub`. -/
theorem globBody_eq (g : List Char) :
    qmarkStep (starStep (escapeStep g)) = (g.map combinedSub).flatten := by
  induction g with
  | nil => rfl
  | cons c g ih =>
    rw [escapeStep_cons, starStep_append, qmarkStep_append, List.map_cons, List.flatten_cons,
      ← ih]
    congr 1
    have hb1 : ('\\' : Char) ≠ '*' := by decide
    have hb2 : ('\\' : Char) ≠ '?' := by decide
    have hd2 : ('.' : Char) ≠ '?' := by decide
    have hs2 : ('*' : Char) ≠ '?' := by decide
    by_cases hsp : c ∈ regexSpecials
    · have h1 : c ≠ '*' := fun h => by subst h; revert hsp; decide
      have h2 : c ≠ '?' := fun h => by subst h; revert hsp; decide
      simp [escapeChar, combinedSub, hsp, starStep, starSub, qmarkStep, qmarkSub,
        h1, h2, hb1, hb2]
    · by_cases h1 : c = '*'
      · subst h1
        simp [escapeChar, combinedSub, hsp, starStep, starSub, qmarkStep, qmarkSub, hd2, hs2]
      · by_cases h2 : c = '?'
        · subst h2
          simp [escapeChar, combinedSub, hsp, starStep, starSub, qmarkStep, qmarkSub, h1]
        · simp [escapeChar, combinedSub, hsp, starStep, starSub, qmarkStep, qmarkSub, h1, h2]

theorem combinedSub_ne_nil (c : Char) : combinedSub c ≠ [] := by
  unfold combinedSub
  split
  · simp
  · split
    · simp
    · split <;> simp

/-- The head of a per-character substitution is never a bare `*`: a `*`
only ever appears right after the `.` produced for a glob `*`. -/
theorem combinedSub_head_ne_star (c x : Char) (xs : List Char)
    (hc : combinedSub c = x :: xs) : x ≠ '*' := by
  unfold combinedSub at hc
  split at hc
  · injection hc with h1 _
    rw [← h1]; decide
  · split at hc
    · injection hc with h1 _
      rw [← h1]; decide
    · split at hc
      · injection hc with h1 _
        rw [← h1]; decide
      · next h1s _ =>
        injection hc with h1 _
        rw [← h1]; exact h1s

theorem combined_flatten_eq_nil (g : List Char)
    (h : (g.map combinedSub).flatten = []) : g = [] := by
  cases g with
  | nil => rfl
  | cons c g' =>
    rw [List.map_cons, List.flatten_cons] at h
    cases hc : combinedSub c with
    | nil => exact absurd hc (combinedSub_ne_nil c)
    | cons x xs => rw [hc] at h; simp at h

theorem combined_flatten_head_ne_star (g : List Char) (d : Char) (r : List Char)
    (h : (g.map combinedSub).flatten = d :: r) : d ≠ '*' := by
  cases g with
  | nil => simp at h
  | cons c g' =>
    rw [List.map_cons, List.flatten_cons] at h
    cases hc : combinedSub c with
    | nil => exact absurd hc (combinedSub_ne_nil c)
    | cons x xs =>
      rw [hc, List.cons_append] at h
      injection h with hx _
      exact hx ▸ combinedSub_head_ne_star c x xs hc

/-- Parsing the regex source `globToRegex` produces recovers exactly the
atom list `globToks`. -/
theorem parse_globBody (g : List Char) :
    parseRegexBody ((g.map combinedSub).flatten) = some (globToks g) := by
  induction g with
  | nil => rfl
  | cons c g ih =>
    rw [List.map_cons, List.flatten_cons]
    by_cases hsp : c ∈ regexSpecials
    · have h1 : c ≠ '*' := fun h => by subst h; revert hsp; decide
      have h2 : c ≠ '?' := fun h => by subst h; revert hsp; decide
      rw [show combinedSub c = ['\\', c] from by rw [combinedSub, if_pos hsp]]
      show parseRegexBody ('\\' :: c :: _) = _
      unfold parseRegexBody
      simp [ih, globToks, h1, h2]
    · by_cases h1 : c = '*'
      · subst h1
        rw [show combinedSub '*' = ['.', '*'] from by
          rw [combinedSub, if_neg hsp, if_pos rfl]]
        show parseRegexBody ('.' :: '*' :: _) = _
        unfold parseRegexBody
        simp [ih, globToks]
      · by_cases h2 : c = '?'
        · subst h2
          rw [show combinedSub '?' = ['.'] from by
            rw [combinedSub, if_neg hsp, if_neg (by decide), if_pos rfl]]
          show parseRegexBody ('.' :: _) = _
          cases hR : (g.map combinedSub).flatten with
          | nil =>
            have hg : g = [] := combined_flatten_eq_nil g hR
            subst hg
            rfl
          | cons d r =>
            have hd : d ≠ '*' := combined_flatten_head_ne_star g d r hR
            have ihr : parseRegexBody (d :: r) = some (globToks g) := by
              rw [← hR]; exact ih
            show parseRegexBody ('.' :: d :: r) = _
            unfold parseRegexBody
            simp [ihr, globToks, hd]
        · have hc1 : c ≠ '\\' := fun h => by subst h; revert hsp; simp [regexSpecials]
          have hc2 : c ≠ '.' := fun h => by subst h; revert hsp; simp [regexSpecials]
          rw [show combinedSub c = [c] from by
            rw [combinedSub, if_neg hsp, if_neg h1, if_neg h2]]
          show parseRegexBody (c :: _) = _
          unfold parseRegexBody
          simp [ih, globToks, h1, h2, hc1, hc2]

/-- A member of `dotSuffixes s` is exactly a suffix of `s` whose removed
prefix consists of `.`-matchable characters. -/
theorem mem_dotSuffixes (s u : List Char) :
    u ∈ dotSuffixes s ↔ ∃ t, s = t ++ u ∧ ∀ x ∈ t, dotMatch x = true := by
  induction s with
  | nil =>
    simp only [dotSuffixes, List.mem_singleton]
    constructor
    · rintro rfl
      exact ⟨[], rfl, by simp⟩
    · rintro ⟨t, ht, _⟩
      rcases List.append_eq_nil.mp ht.symm with ⟨rfl, rfl⟩
      rfl
  | cons d ds ih =>
    by_cases hd : dotMatch d = true
    · simp only [dotSuffixes, hd, if_true, List.mem_cons]
      constructor
      · rintro (rfl | hu)
        · exact ⟨[], rfl, by simp⟩
        · obtain ⟨t, ht, hall⟩ := ih.mp hu
          exact ⟨d :: t, by rw [List.cons_append, ← ht], by
            intro x hx
            rcases List.mem_cons.mp hx with rfl | hx
            · exact hd
            · exact hall x hx⟩
      · rintro ⟨t, heq, hall⟩
        cases t with
        | nil =>
          left
          simpa using heq.symm
        | cons x t =>
          right
          rw [List.cons_append] at heq
          injection heq with h1 h2
          exact ih.mpr ⟨t, h2, fun y hy => hall y (List.mem_cons_of_mem _ hy)⟩
    · simp only [dotSuffixes, hd, Bool.false_eq_true, if_false, List.mem_singleton]
      constructor
      · rintro rfl
        exact ⟨[], rfl, by simp⟩
      · rintro ⟨t, heq, hall⟩
        cases t with
        | nil => simpa using heq.symm
        | cons x t =>
          rw [List.cons_append] at heq
          injection heq with h1 h2
          exact absurd (h1 ▸ hall x (by simp)) hd

/-- The matcher agrees with the declarative glob semantics. -/
theorem rmatch_globToks (g : List Char) :
    ∀ s, rmatch (globToks g) s = true ↔ GlobSpec g s := by
  induction g with
  | nil =>
    intro s
    cases s <;> simp [globToks, rmatch, GlobSpec]
  | cons c g ih =>
    intro s
    by_cases h1 : c = '*'
    · subst h1
      show ((dotSuffixes s).any fun u => rmatch (globToks g) u) = true ↔ GlobSpec ('*' :: g) s
      rw [List.any_eq_true]
      constructor
      · rintro ⟨u, hu, hr⟩
        obtain ⟨t, rfl, hall⟩ := (mem_dotSuffixes s u).mp hu
        show GlobSpec ('*' :: g) (t ++ u)
        unfold GlobSpec
        rw [if_pos rfl]
        exact ⟨t, u, rfl, hall, (ih u).mp hr⟩
      · intro hg
        unfold GlobSpec at hg
        rw [if_pos rfl] at hg
        obtain ⟨t, u, rfl, hall, hgu⟩ := hg
        exact ⟨u, (mem_dotSuffixes _ u).mpr ⟨t, rfl, hall⟩, (ih u).mpr hgu⟩
    · by_cases h2 : c = '?'
      · subst h2
        cases s with
        | nil =>
          show false = true ↔ GlobSpec ('?' :: g) []
          unfold GlobSpec
          rw [if_neg (by decide), if_pos rfl]
          simp
        | cons d ds =>
          show (dotMatch d && rmatch (globToks g) ds) = true ↔ GlobSpec ('?' :: g) (d :: ds)
          unfold GlobSpec
          rw [if_neg (by decide), if_pos rfl]
          rw [Bool.and_eq_true]
          constructor
          · rintro ⟨hdot, hr⟩
            exact ⟨d, ds, rfl, hdot, (ih ds).mp hr⟩
          · rintro ⟨d', u, heq, hdot, hgu⟩
            injection heq with hde hds
            subst hde
            subst hds
            exact ⟨hdot, (ih ds).mpr hgu⟩
      · have hg : globToks (c :: g) = RTok.lit c :: globToks g := by
          simp [globToks, h1, h2]
        rw [hg]
        cases s with
        | nil =>
          show false = true ↔ GlobSpec (c :: g) []
          unfold GlobSpec
          rw [if_neg h1, if_neg h2]
          simp
        | cons d ds =>
          show ((c.toLower == d.toLower) && rmatch (globToks g) ds) = true ↔
            GlobSpec (c :: g) (d :: ds)
          unfold GlobSpec
          rw [if_neg h1, if_neg h2]
          rw [Bool.and_eq_true, beq_iff_eq]
          constructor
          · rintro ⟨hl, hr⟩
            exact ⟨d, ds, rfl, hl, (ih ds).mp hr⟩
          · rintro ⟨d', u, heq, hl, hgu⟩
            injection heq with hde hds
            subst hde
            subst hds
            exact ⟨hl, (ih ds).mpr hgu⟩

/-- `globToRegex(g).test(s)` agrees with the declarative glob
semantics. -/
theorem globTest_iff (g s : String) :
    globTest g s = true ↔ GlobSpec g.data s.data := by
  unfold globTest globToRegexBody
  rw [globBody_eq, parse_globBody]
  exact rmatch_globToks g.data s.data

/-- `shouldExclude` holds exactly when some pattern matches the whole
filename. -/
theorem shouldExclude_iff (f : String) (ps : List String) :
    shouldExclude f ps = true ↔ ∃ p ∈ ps, globTest p f = true := by
  induction ps with
  | nil => simp [shouldExclude]
  | cons p ps ih =>
    by_cases hp : globTest p f = true
    · simp [shouldExclude, hp]
    · simp [shouldExclude, hp, ih]

/-! ## C5 — corrected: glob matching semantics -/

/-- C5 counterexample: the glob `?` compiles to the regex `^.$` with
flag `i`, and a JavaScript `.` without the `s` flag does not match the
line terminator U+000A; the single-character filename `"\n"` is
therefore not matched by pattern `?` and not excluded by it — refuting
the claim's "'?' [matches] any single character" (and, for such
filenames, the excluded-iff-some-pattern-matches reading built on it). -/
theorem C5_counterexample :
    ("\n".length = 1 ∧ shouldExclude "\n" ["?"] = false) ∧ globTest "?" "\n" = false := by
  exact ⟨⟨rfl, rfl⟩, rfl⟩

/-- C5 (amended): the translation maps each glob pattern to an
anchored, case-insensitive matcher in which `*` matches any sequence of
non-line-terminator characters and `?` any single non-line-terminator
character (U+000A, U+000D, U+2028, U+2029 excluded, as for a JavaScript
`.` without the `s` flag), with all other regex metacharacters treated
literally (`GlobSpec` is exactly that reading, `dotMatch` the
non-line-terminator test); consequently pattern `*.tmp` matches `a.tmp`
and its case variant `A.TMP` and matches neither `a.tmpx` nor
`tmp.txt`, and a filename is excluded iff some configured pattern
matches its full name. -/
theorem C5_amended_glob_semantics :
    (globTest "*.tmp" "a.tmp" = true ∧ globTest "*.tmp" "A.TMP" = true ∧
      globTest "*.tmp" "a.tmpx" = false ∧ globTest "*.tmp" "tmp.txt" = false) ∧
    (∀ g s : String, globTest g s = true ↔ GlobSpec g.data s.data) ∧
    (∀ (f : String) (ps : List String),
      shouldExclude f ps = true ↔ ∃ p ∈ ps, globTest p f = true) := by
  exact ⟨⟨by decide, by decide, by decide, by decide⟩, globTest_iff, shouldExclude_iff⟩

end GDrive
